import Mathlib

/-!
# Verification of the AI-Data-Platform ETL / KPI core

Shallow embedding of the repository's KPI engine
(`ai_data_platform/analytics/kpi_engine.py`), CSV validation loop
(`ai_data_platform/models/validation.py`), database loader
(`ai_data_platform/ingestion/database_loader.py`) and ETL orchestrator
(`ai_data_platform/ingestion/etl_pipeline.py`).

Python `Decimal` values are modelled as exact rationals (`ℚ`); the
half-up quantization of `Decimal.quantize(..., ROUND_HALF_UP)` is
modelled by `roundHalfUp`.  Wall-clock timestamps (`datetime.now()`,
`date.today()`) are threaded as explicit parameters or omitted where no
claim depends on them.  The SQL store tables are modelled as Lean lists
of row structures, and SQL aggregation queries are translated clause by
clause into list operations.
-/

namespace AIDataPlatform

/-- Half-up rounding at `s` decimal places, as performed by
`Decimal.quantize(Decimal('0.' ++ zeros ++ '1'), rounding=ROUND_HALF_UP)`:
ties are rounded away from zero. -/
def roundHalfUp (s : ℕ) (q : ℚ) : ℚ :=
  if q < 0 then -((⌊(-q) * 10 ^ s + 1/2⌋ : ℚ) / 10 ^ s)
  else (⌊q * 10 ^ s + 1/2⌋ : ℚ) / 10 ^ s

/-- `KPIEngine.calculate_cac` (kpi_engine.py:45-70): `None` when
`conversions <= 0`; negative spend clamped to `0`; otherwise
`spend / conversions` rounded half-up to 4 decimal places.
(The `try/except` guard never fires in exact-rational arithmetic.) -/
def calculate_cac (spend : ℚ) (conversions : ℤ) : Option ℚ :=
  if conversions ≤ 0 then none
  else
    let spend' : ℚ := if spend < 0 then 0 else spend
    some (roundHalfUp 4 (spend' / (conversions : ℚ)))

/-- `KPIEngine.calculate_roas` (kpi_engine.py:72-97): `None` when
`spend <= 0`; negative revenue clamped to `0`; otherwise
`revenue / spend` rounded half-up to 4 decimal places. -/
def calculate_roas (revenue : ℚ) (spend : ℚ) : Option ℚ :=
  if spend ≤ 0 then none
  else
    let revenue' : ℚ := if revenue < 0 then 0 else revenue
    some (roundHalfUp 4 (revenue' / spend))

/-- `KPIEngine.calculate_revenue` (kpi_engine.py:99-117): negative
conversions clamped to `0`; `conversions * revenue_per_conversion`
rounded half-up to 2 decimal places.  The engine default for
`revenue_per_conversion` is `Decimal('100')`. -/
def calculate_revenue (conversions : ℤ) (revenue_per_conversion : ℚ := 100) : ℚ :=
  let conversions' : ℤ := if conversions < 0 then 0 else conversions
  roundHalfUp 2 ((conversions' : ℚ) * revenue_per_conversion)

/-- The diagnostic attached by `compute_kpis_for_record` when CAC is
`None` because there are no conversions. -/
def cacZeroMsg : String := "CAC calculation: Division by zero (no conversions)"

/-- The diagnostic attached by `compute_kpis_for_record` when ROAS is
`None` because there is no spend. -/
def roasZeroMsg : String := "ROAS calculation: Division by zero (no spend)"

/-- `KPICalculationResult` (kpi_engine.py:16-30), minus the wall-clock
`calculation_date` field, on which no claim depends. -/
structure KPICalculationResult where
  cac : Option ℚ
  roas : Option ℚ
  revenue : ℚ
  total_spend : ℚ
  total_conversions : ℤ
  has_errors : Bool
  error_messages : List String
  deriving Repr, DecidableEq

/-- `KPIEngine.compute_kpis_for_record` (kpi_engine.py:119-155):
computes revenue, CAC and ROAS, attaching a division-by-zero note when
CAC is `None` with `conversions == 0`, and when ROAS is `None` with
`spend == 0`; `has_errors` records whether any note was attached. -/
def compute_kpis_for_record (spend : ℚ) (conversions : ℤ)
    (revenue_per_conversion : ℚ := 100) : KPICalculationResult :=
  let revenue := calculate_revenue conversions revenue_per_conversion
  let cac := calculate_cac spend conversions
  let errs₁ : List String :=
    if cac = none ∧ conversions = 0 then [cacZeroMsg] else []
  let roas := calculate_roas revenue spend
  let errs : List String :=
    errs₁ ++ (if roas = none ∧ spend = 0 then [roasZeroMsg] else [])
  { cac := cac
    roas := roas
    revenue := revenue
    total_spend := spend
    total_conversions := conversions
    has_errors := decide (errs ≠ [])
    error_messages := errs }

/-- The CAC formula as the spec words it (§4.5): null when
`conversions ≤ 0`; otherwise `spend / conversions` with negative spend
first replaced by `0`, rounded half-up to 4 decimal places. -/
def calculate_cacSpec (spend : ℚ) (conversions : ℤ) : Option ℚ :=
  if conversions ≤ 0 then none
  else some (roundHalfUp 4 (max spend 0 / (conversions : ℚ)))

/-- C2: for every decimal spend and integer conversions, `calculate_cac`
returns null when `conversions ≤ 0` and otherwise `spend / conversions`
with negative spend first replaced by `0`, rounded half-up to 4 decimal
places; in particular `calculate_cac 100.00 3 = 33.3333`. -/
theorem calculate_cac_matches_spec :
    (∀ (spend : ℚ) (conversions : ℤ),
      calculate_cac spend conversions = calculate_cacSpec spend conversions) ∧
    calculate_cac 100 3 = some (333333 / 10000 : ℚ) := by
  constructor
  · intro spend conversions
    unfold calculate_cac calculate_cacSpec
    rcases le_or_lt conversions 0 with h | h
    · simp [h]
    · rcases lt_or_le spend 0 with hs | hs
      · simp [not_le.mpr h, hs, max_eq_right hs.le]
      · simp [not_le.mpr h, not_lt.mpr hs, max_eq_left hs]
  · norm_num [calculate_cac, roundHalfUp]

/-- C3: `compute_kpis_for_record 0.00 5` (default revenue rate) yields
`CAC = 0.0000`, `Revenue = 500.00`, `ROAS = null`, `has_errors = true`;
in general the CAC division-by-zero note is attached exactly when
`conversions = 0`, the ROAS note exactly when `spend = 0`, and the
computed values are returned regardless, so `has_errors` is purely
informational. -/
theorem compute_kpis_division_by_zero_notes :
    ((compute_kpis_for_record 0 5).cac = some 0 ∧
     (compute_kpis_for_record 0 5).revenue = 500 ∧
     (compute_kpis_for_record 0 5).roas = none ∧
     (compute_kpis_for_record 0 5).has_errors = true) ∧
    (∀ (spend : ℚ) (conversions : ℤ) (rate : ℚ),
      (cacZeroMsg ∈ (compute_kpis_for_record spend conversions rate).error_messages
        ↔ conversions = 0) ∧
      (roasZeroMsg ∈ (compute_kpis_for_record spend conversions rate).error_messages
        ↔ spend = 0) ∧
      (compute_kpis_for_record spend conversions rate).has_errors
        = decide (conversions = 0 ∨ spend = 0) ∧
      (compute_kpis_for_record spend conversions rate).cac
        = calculate_cac spend conversions ∧
      (compute_kpis_for_record spend conversions rate).roas
        = calculate_roas (calculate_revenue conversions rate) spend ∧
      (compute_kpis_for_record spend conversions rate).revenue
        = calculate_revenue conversions rate) := by
  refine ⟨?_, ?_⟩
  · refine ⟨?_, ?_, ?_, ?_⟩ <;>
      norm_num [compute_kpis_for_record, calculate_cac, calculate_roas,
        calculate_revenue, roundHalfUp]
  · intro spend conversions rate
    have hmsg : cacZeroMsg ≠ roasZeroMsg := by decide
    by_cases hc : conversions = 0 <;> by_cases hs : spend = 0 <;>
      simp [compute_kpis_for_record, calculate_cac, calculate_roas, hc, hs,
        hmsg, hmsg.symm]

/-! ## KPI storage (`store_kpi_metrics`, kpi_engine.py:237-283)

The `kpi_metrics` table (database/schema.py:56-88) has
`PRIMARY KEY (date, platform, account, campaign, country, device)`, and
`store_kpi_metrics` writes with `INSERT OR REPLACE`, so a conflicting
row is replaced.  The table is modelled as a list of rows; `created_at`
timestamps are opaque naturals. -/

/-- One row of the `kpi_metrics` table / one `KPIMetrics` value
(models/ads_spend.py).  The `date` is kept opaque as a string. -/
structure KPIMetrics where
  date : String
  platform : String
  account : String
  campaign : String
  country : String
  device : String
  total_spend : ℚ
  total_conversions : ℤ
  cac : Option ℚ
  roas : Option ℚ
  revenue : ℚ
  created_at : ℕ
  deriving Repr, DecidableEq

/-- The six-dimension primary key of the `kpi_metrics` table. -/
def KPIMetrics.key (m : KPIMetrics) : String × String × String × String × String × String :=
  (m.date, m.platform, m.account, m.campaign, m.country, m.device)

/-- One `INSERT OR REPLACE` into `kpi_metrics`: every row sharing the
primary key is replaced by the incoming row. -/
def upsertKpiRow (store : List KPIMetrics) (m : KPIMetrics) : List KPIMetrics :=
  store.filter (fun r => r.key ≠ m.key) ++ [m]

/-- `KPIEngine.store_kpi_metrics` (kpi_engine.py:237-283): returns `0`
immediately for an empty input; otherwise runs the batch
`INSERT OR REPLACE` over the list in order and returns its length.
Result: (return value, new table state). -/
def store_kpi_metrics (store : List KPIMetrics) (kpi_metrics : List KPIMetrics) :
    ℕ × List KPIMetrics :=
  if kpi_metrics = [] then (0, store)
  else (kpi_metrics.length, kpi_metrics.foldl upsertKpiRow store)

/-- After an upsert, the rows for key `k` are exactly the inserted row
when it carries key `k`. -/
theorem upsertKpiRow_filter_key (store : List KPIMetrics) (m : KPIMetrics)
    (k : String × String × String × String × String × String) :
    (upsertKpiRow store m).filter (fun r => r.key = k)
      = if m.key = k then [m] else (store.filter (fun r => r.key = k)) := by
  unfold upsertKpiRow
  rw [List.filter_append, List.filter_filter]
  by_cases h : m.key = k
  · have hnil : store.filter
        (fun a => decide (a.key = k) && decide (a.key ≠ m.key)) = [] := by
      refine List.filter_eq_nil_iff.mpr ?_
      intro a _
      by_cases he : a.key = k
      · have hm : a.key = m.key := he.trans h.symm
        simp [hm]
      · simp [he]
    rw [hnil]
    simp [h]
  · have hsame : store.filter
        (fun a => decide (a.key = k) && decide (a.key ≠ m.key))
          = store.filter (fun r => r.key = k) := by
      refine List.filter_congr ?_
      intro a _
      by_cases he : a.key = k
      · have hkm : k ≠ m.key := fun hk => h hk.symm
        simp [he, hkm]
      · simp [he]
    rw [hsame]
    simp [h]

/-- C4: upserting two `KPIMetrics` values with the same six-dimension
key (one `store_kpi_metrics` call each, in order) leaves exactly one row
for that key, carrying the second value; and `store_kpi_metrics` on an
empty list returns `0` and leaves the store unchanged. -/
theorem store_kpi_metrics_upsert_replaces (store : List KPIMetrics)
    (m₁ m₂ : KPIMetrics) (hkey : m₁.key = m₂.key) :
    (((store_kpi_metrics (store_kpi_metrics store [m₁]).2 [m₂]).2).filter
        (fun r => r.key = m₂.key) = [m₂]) ∧
    store_kpi_metrics store [] = (0, store) := by
  constructor
  · have h₁ : (store_kpi_metrics store [m₁]).2 = upsertKpiRow store m₁ := by
      simp [store_kpi_metrics]
    have h₂ : (store_kpi_metrics (upsertKpiRow store m₁) [m₂]).2
        = upsertKpiRow (upsertKpiRow store m₁) m₂ := by
      simp [store_kpi_metrics]
    rw [h₁, h₂, upsertKpiRow_filter_key]
    simp
  · simp [store_kpi_metrics]

/-- Witness for C4 at a concrete store and two concrete rows sharing a
key. -/
theorem store_kpi_metrics_upsert_replaces_witness :
    let m₁ : KPIMetrics :=
      { date := "2025-01-01", platform := "Meta", account := "A",
        campaign := "C", country := "US", device := "Desktop",
        total_spend := 100, total_conversions := 5, cac := some 20,
        roas := some 5, revenue := 500, created_at := 0 }
    let m₂ : KPIMetrics :=
      { m₁ with total_spend := 250, total_conversions := 10,
                cac := some 25, roas := some 4, revenue := 1000,
                created_at := 1 }
    (((store_kpi_metrics (store_kpi_metrics [] [m₁]).2 [m₂]).2).filter
        (fun r => r.key = m₂.key) = [m₂]) ∧
    store_kpi_metrics ([] : List KPIMetrics) [] = (0, []) :=
  store_kpi_metrics_upsert_replaces [] _ _ rfl

/-! ## CSV file validation (`validate_csv_file`, models/validation.py:99-159)

We model the per-row loop (lines 139-153), which runs once the file has
been opened and the required headers verified.  A CSV row is its list of
cell values; Python's `not any(row.values())` skips a row exactly when
every cell is an empty string (empty strings are falsy).  The per-row
validator `validate_ads_spend_record` is a parameter of the loop: the
loop's bookkeeping is independent of it. -/

/-- The mutable fields of `ValidationResult` that the row loop updates
(models/validation.py:17-37). -/
structure FileValidationState where
  total_processed : ℕ
  valid_records : List (List String)
  invalid_records : List (List String × String)
  errors : List String
  warnings : List String
  deriving Repr, DecidableEq

/-- `not any(row.values())`: true when every cell is an empty string. -/
def rowIsEmpty (row : List String) : Bool :=
  row.all (fun v => v = "")

/-- One iteration of the row loop (models/validation.py:140-153):
`total_processed` is incremented first; a fully-empty row is then
skipped with a warning; otherwise the row is validated and recorded as
valid or invalid. -/
def processCsvRow (validate : List String → Option String)
    (st : FileValidationState) (row : List String) : FileValidationState :=
  let st := { st with total_processed := st.total_processed + 1 }
  if rowIsEmpty row then
    { st with warnings := st.warnings ++ ["Empty row skipped"] }
  else
    match validate row with
    | none => { st with valid_records := st.valid_records ++ [row] }
    | some e =>
        { st with errors := st.errors ++ [e],
                  invalid_records := st.invalid_records ++ [(row, e)] }

/-- The row loop of `validate_csv_file` over the data rows of a file
whose headers validated, starting from a fresh `ValidationResult`. -/
def validate_csv_rows (validate : List String → Option String)
    (rows : List (List String)) : FileValidationState :=
  rows.foldl (processCsvRow validate) ⟨0, [], [], [], []⟩

/-- Loop invariant for the row loop: each iteration adds one to
`total_processed`, and adds one valid or invalid record unless the row
is fully empty. -/
theorem processCsvRow_foldl (validate : List String → Option String)
    (rows : List (List String)) (st : FileValidationState) :
    (rows.foldl (processCsvRow validate) st).total_processed
        = st.total_processed + rows.length ∧
    (rows.foldl (processCsvRow validate) st).valid_records.length
        + (rows.foldl (processCsvRow validate) st).invalid_records.length
      = st.valid_records.length + st.invalid_records.length
        + (rows.countP (fun r => ¬ rowIsEmpty r)) := by
  induction rows generalizing st with
  | nil => simp
  | cons row rest ih =>
    rcases ih (processCsvRow validate st row) with ⟨ih₁, ih₂⟩
    refine ⟨?_, ?_⟩
    · rw [List.foldl_cons, ih₁]
      by_cases h : rowIsEmpty row
      · simp [processCsvRow, h]
        omega
      · rcases hv : validate row with _ | e <;>
          simp [processCsvRow, h, hv] <;> omega
    · rw [List.foldl_cons, ih₂, List.countP_cons]
      by_cases h : rowIsEmpty row
      · simp [processCsvRow, h]
      · rcases hv : validate row with _ | e <;>
          simp [processCsvRow, h, hv] <;> omega

/-- Counterexample to C6: a file whose single data row is fully empty.
The row is skipped with a warning, yet `total_processed` is `1` (the
counter is incremented before the skip check), while there are no valid
and no invalid records, so
`total_processed ≠ valid_records + invalid_records`. -/
theorem validate_csv_rows_counts_skipped_rows :
    (validate_csv_rows (fun _ => none) [[""]]).total_processed = 1 ∧
    (validate_csv_rows (fun _ => none) [[""]]).valid_records.length = 0 ∧
    (validate_csv_rows (fun _ => none) [[""]]).invalid_records.length = 0 ∧
    (validate_csv_rows (fun _ => none) [[""]]).warnings
      = ["Empty row skipped"] := by
  refine ⟨?_, ?_, ?_, ?_⟩ <;> decide

/-- C6 amended: after the row loop of `validate_csv_file`,
`total_processed` counts every iterated data row — including
fully-empty rows that are skipped with a warning — so
`total_processed = rows.length` and
`valid + invalid = total_processed - (number of skipped empty rows)`. -/
theorem validate_csv_rows_total_processed (validate : List String → Option String)
    (rows : List (List String)) :
    (validate_csv_rows validate rows).total_processed = rows.length ∧
    (validate_csv_rows validate rows).valid_records.length
        + (validate_csv_rows validate rows).invalid_records.length
      = rows.length - rows.countP (fun r => rowIsEmpty r) := by
  rcases processCsvRow_foldl validate rows ⟨0, [], [], [], []⟩ with ⟨h₁, h₂⟩
  refine ⟨by simpa using h₁, ?_⟩
  rw [validate_csv_rows, h₂]
  have hc := rows.countP_le_length (p := fun r => rowIsEmpty r)
  have hsplit : rows.countP (fun r => ¬ rowIsEmpty r)
      = rows.length - rows.countP (fun r => rowIsEmpty r) := by
    have := List.length_eq_countP_add_countP (p := fun r => rowIsEmpty r) (l := rows)
    have hnot : rows.countP (fun r => ¬ rowIsEmpty r)
        = rows.countP (fun r => ¬ (rowIsEmpty r = true)) := by
      simp
    omega
  simpa using hsplit

/-! ## Database loader and ETL orchestrator
(`ingestion/database_loader.py`, `ingestion/etl_pipeline.py`)

The raw store (`raw_ads_spend`) is a list of tagged rows; for the
orchestration claims only the `batch_id` tag matters, the remaining
columns are an opaque payload.  `ETLPipeline.run` is embedded as a pure
function over an environment recording the outcome of each collaborator
step (prerequisites check, batch-existence query, CSV validation,
transform, load); Python exceptions caught by the orchestrator's
`except` block become the error branches of those outcomes. -/

/-- One row of `raw_ads_spend`, reduced to its batch tag and an opaque
payload for the remaining twelve columns. -/
structure TaggedRow where
  batch_id : String
  payload : String
  deriving Repr, DecidableEq

/-- Outcome of the `SELECT COUNT(*) ... WHERE batch_id = ?` query of
`check_batch_exists`: either the store it ran over, or the exception the
query raised. -/
def batchQuery (fault : Option String) (store : List TaggedRow) :
    Except String (List TaggedRow) :=
  match fault with
  | some e => Except.error e
  | none => Except.ok store

/-- `DatabaseLoader.check_batch_exists` (database_loader.py:176-201):
count of rows with the batch id is positive; any exception from the
query is caught and reported as `False`. -/
def check_batch_exists (q : Except String (List TaggedRow)) (batch_id : String) :
    Bool :=
  match q with
  | Except.error _ => false
  | Except.ok rows => decide (0 < (rows.filter (fun r => r.batch_id = batch_id)).length)

/-- Result of `DatabaseLoader.insert_records`, plus the raw store it
leaves behind. -/
structure LoadResult where
  inserted : ℕ
  failed : ℕ
  errors : List String
  newStore : List TaggedRow
  deriving Repr, DecidableEq

/-- `ETLPipelineResult` (etl_pipeline.py:17-92), restricted to fields
the claims mention; fresh results start zeroed with `success = False`
and no message. -/
structure EtlResult where
  total_records_read : ℕ
  valid_records : ℕ
  invalid_records : ℕ
  records_inserted : ℕ
  records_failed : ℕ
  validation_errors : List String
  insertion_errors : List String
  success : Bool
  error_message : Option String
  deriving Repr, DecidableEq

/-- A fresh `ETLPipelineResult` (etl_pipeline.py:20-33). -/
def emptyEtlResult : EtlResult :=
  { total_records_read := 0, valid_records := 0, invalid_records := 0,
    records_inserted := 0, records_failed := 0, validation_errors := [],
    insertion_errors := [], success := false, error_message := none }

/-- `ETLPipelineResult.validation_success_rate` (etl_pipeline.py:43-52)
applied to the counters copied from the validation result. -/
def validationSuccessRate (v : FileValidationState) : ℚ :=
  if 0 < v.total_processed then
    ((v.valid_records.length : ℚ) / (v.total_processed : ℚ)) * 100
  else 0

/-- The informational message set when an existing batch is skipped
(etl_pipeline.py:171). -/
def skipMsg : String := "Batch already exists, processing skipped"

/-- Message of the threshold `ValueError` (etl_pipeline.py:185-188);
the interpolated percentages are omitted. -/
def thresholdMsg : String := "Validation success rate is below threshold"

/-- Message of the zero-valid-records `ValueError` (etl_pipeline.py:191). -/
def noValidMsg : String := "No valid records found in CSV file"

/-- Partial-success message (etl_pipeline.py:221); the interpolated
failure count is omitted. -/
def partialMsg : String := "Completed with insertion failures"

/-- Message when nothing was inserted (etl_pipeline.py:225). -/
def noneInsertedMsg : String := "No records were successfully inserted"

/-- Outcomes of the collaborator steps `ETLPipeline.run` sequences:
prerequisites check, batch-existence query fault, CSV validation result,
transform step, load step. -/
structure EtlEnv where
  prereq : Except String Unit
  batchQueryFault : Option String
  validation : FileValidationState
  transform : List (List String) → Except String (List TaggedRow)
  load : List TaggedRow → List TaggedRow → LoadResult

/-- `ETLPipeline.run` (etl_pipeline.py:143-243): prerequisites, optional
skip of an existing batch, validation with threshold and zero-valid
checks, transform, load, and interpretation of the load counts.
Returns the result object and the raw store after the run. -/
def ETLPipeline_run (env : EtlEnv) (store : List TaggedRow) (batch_id : String)
    (skip_if_exists : Bool) (validation_threshold : ℚ) :
    EtlResult × List TaggedRow :=
  match env.prereq with
  | Except.error e =>
      ({ emptyEtlResult with success := false, error_message := some e }, store)
  | Except.ok _ =>
    if skip_if_exists &&
        check_batch_exists (batchQuery env.batchQueryFault store) batch_id then
      ({ emptyEtlResult with success := true, error_message := some skipMsg }, store)
    else
      let v := env.validation
      let r₁ : EtlResult :=
        { emptyEtlResult with
            total_records_read := v.total_processed,
            valid_records := v.valid_records.length,
            invalid_records := v.invalid_records.length,
            validation_errors := v.errors }
      if validationSuccessRate v < validation_threshold then
        ({ r₁ with success := false, error_message := some thresholdMsg }, store)
      else if v.valid_records.isEmpty then
        ({ r₁ with success := false, error_message := some noValidMsg }, store)
      else
        match env.transform v.valid_records with
        | Except.error e =>
            ({ r₁ with success := false, error_message := some e }, store)
        | Except.ok recs =>
          let l := env.load recs store
          let r₂ : EtlResult :=
            { r₁ with records_inserted := l.inserted,
                      records_failed := l.failed,
                      insertion_errors := l.errors }
          if 0 < l.inserted ∧ l.failed = 0 then
            ({ r₂ with success := true }, l.newStore)
          else if 0 < l.inserted then
            ({ r₂ with success := true, error_message := some partialMsg },
             l.newStore)
          else
            ({ r₂ with success := false,
                       error_message := some noneInsertedMsg }, l.newStore)

/-- C7: when prerequisites pass, the batch is not skipped, and
validation yields zero valid records, the run fails with a non-null
error message, no records are inserted and the raw store is unchanged —
for every caller-supplied threshold, including `0`. -/
theorem etl_zero_valid_records_fails (env : EtlEnv) (store : List TaggedRow)
    (batch_id : String) (skip_if_exists : Bool) (validation_threshold : ℚ)
    (hpre : env.prereq = Except.ok ())
    (hskip : (skip_if_exists &&
      check_batch_exists (batchQuery env.batchQueryFault store) batch_id) = false)
    (hvalid : env.validation.valid_records = []) :
    (ETLPipeline_run env store batch_id skip_if_exists
        validation_threshold).1.success = false ∧
    (ETLPipeline_run env store batch_id skip_if_exists
        validation_threshold).1.error_message ≠ none ∧
    (ETLPipeline_run env store batch_id skip_if_exists
        validation_threshold).1.records_inserted = 0 ∧
    (ETLPipeline_run env store batch_id skip_if_exists
        validation_threshold).2 = store := by
  unfold ETLPipeline_run
  rw [hpre]
  by_cases hθ : validationSuccessRate env.validation < validation_threshold <;>
    simp [hskip, hvalid, hθ, emptyEtlResult]

/-- C8: whenever the load stage completes, the load counts are
interpreted as: some inserted and none failed → success with no
message; some inserted and some failed → success with an explanatory
message (partial success); none inserted → failure. -/
theorem etl_load_result_interpretation (env : EtlEnv) (store : List TaggedRow)
    (batch_id : String) (skip_if_exists : Bool) (validation_threshold : ℚ)
    (recs : List TaggedRow)
    (hpre : env.prereq = Except.ok ())
    (hskip : (skip_if_exists &&
      check_batch_exists (batchQuery env.batchQueryFault store) batch_id) = false)
    (hrate : ¬ validationSuccessRate env.validation < validation_threshold)
    (hvalid : env.validation.valid_records ≠ [])
    (htrans : env.transform env.validation.valid_records = Except.ok recs) :
    ((0 < (env.load recs store).inserted ∧ (env.load recs store).failed = 0 →
      (ETLPipeline_run env store batch_id skip_if_exists
          validation_threshold).1.success = true ∧
      (ETLPipeline_run env store batch_id skip_if_exists
          validation_threshold).1.error_message = none) ∧
     (0 < (env.load recs store).inserted ∧ 0 < (env.load recs store).failed →
      (ETLPipeline_run env store batch_id skip_if_exists
          validation_threshold).1.success = true ∧
      (ETLPipeline_run env store batch_id skip_if_exists
          validation_threshold).1.error_message = some partialMsg) ∧
     ((env.load recs store).inserted = 0 →
      (ETLPipeline_run env store batch_id skip_if_exists
          validation_threshold).1.success = false ∧
      (ETLPipeline_run env store batch_id skip_if_exists
          validation_threshold).1.error_message = some noneInsertedMsg)) ∧
    (ETLPipeline_run env store batch_id skip_if_exists
        validation_threshold).1.records_inserted = (env.load recs store).inserted ∧
    (ETLPipeline_run env store batch_id skip_if_exists
        validation_threshold).1.records_failed = (env.load recs store).failed := by
  unfold ETLPipeline_run
  rw [hpre]
  by_cases hins : 0 < (env.load recs store).inserted <;>
    by_cases hf : (env.load recs store).failed = 0 <;>
      simp [hskip, hrate, List.isEmpty_iff, hvalid, htrans, hins, hf,
        emptyEtlResult] <;>
      omega

/-- C9: with `skip_if_exists = True` and a batch id that already has
rows in the raw store (and a healthy existence query), the run returns
the skip result — `success = true` with the informational message, all
counters zero — and the raw store is untouched: validation, transform
and load never happen. -/
theorem etl_skip_existing_noop (env : EtlEnv) (store : List TaggedRow)
    (batch_id : String) (validation_threshold : ℚ)
    (hpre : env.prereq = Except.ok ())
    (hfault : env.batchQueryFault = none)
    (hrows : 0 < (store.filter (fun r => r.batch_id = batch_id)).length) :
    ETLPipeline_run env store batch_id true validation_threshold
      = ({ emptyEtlResult with success := true,
                               error_message := some skipMsg }, store) := by
  unfold ETLPipeline_run
  rw [hpre]
  simp [batchQuery, hfault, check_batch_exists, hrows]

/-- C10: `check_batch_exists` reports a failing existence query as
`False`, so a run with `skip_if_exists = True` against a store that
already holds the batch proceeds through validation, transform and load
and inserts anyway, instead of skipping. -/
theorem check_batch_exists_error_weakens_idempotence (env : EtlEnv)
    (store : List TaggedRow) (batch_id : String) (validation_threshold : ℚ)
    (e : String) (recs : List TaggedRow)
    (hfault : env.batchQueryFault = some e)
    (hpre : env.prereq = Except.ok ())
    (hrows : 0 < (store.filter (fun r => r.batch_id = batch_id)).length)
    (hrate : ¬ validationSuccessRate env.validation < validation_threshold)
    (hvalid : env.validation.valid_records ≠ [])
    (htrans : env.transform env.validation.valid_records = Except.ok recs) :
    check_batch_exists (Except.error e) batch_id = false ∧
    (ETLPipeline_run env store batch_id true
        validation_threshold).1.records_inserted = (env.load recs store).inserted ∧
    (ETLPipeline_run env store batch_id true
        validation_threshold).2 = (env.load recs store).newStore := by
  refine ⟨rfl, ?_⟩
  unfold ETLPipeline_run
  rw [hpre]
  have hskip : (true && check_batch_exists
      (batchQuery env.batchQueryFault store) batch_id) = false := by
    rw [hfault]
    rfl
  by_cases hins : 0 < (env.load recs store).inserted <;>
    by_cases hf : (env.load recs store).failed = 0 <;>
      constructor <;>
        simp [hskip, hrate, List.isEmpty_iff, hvalid, htrans, hins, hf]

/-- A collaborator environment whose validation found one valid row and
nothing else, with a transform tagging rows for batch `b1` and a loader
appending every record; used to instantiate the orchestrator theorems. -/
def sampleEnv : EtlEnv :=
  { prereq := Except.ok ()
    batchQueryFault := none
    validation := ⟨1, [["x"]], [], [], []⟩
    transform := fun rs => Except.ok (rs.map fun _ => ⟨"b1", "p"⟩)
    load := fun recs store => ⟨recs.length, 0, [], store ++ recs⟩ }

/-- A collaborator environment whose validation processed one row and
found it invalid, leaving zero valid records. -/
def sampleEnvNoValid : EtlEnv :=
  { prereq := Except.ok ()
    batchQueryFault := none
    validation := ⟨1, [], [(["x"], "bad")], ["Row 2: bad"], []⟩
    transform := fun _ => Except.ok []
    load := fun recs store => ⟨recs.length, 0, [], store ++ recs⟩ }

/-- Witness for C7 at threshold `0`, an empty store and no skip. -/
theorem etl_zero_valid_records_fails_witness :
    (ETLPipeline_run sampleEnvNoValid [] "b1" false 0).1.success = false ∧
    (ETLPipeline_run sampleEnvNoValid [] "b1" false 0).1.error_message ≠ none ∧
    (ETLPipeline_run sampleEnvNoValid [] "b1" false 0).1.records_inserted = 0 ∧
    (ETLPipeline_run sampleEnvNoValid [] "b1" false 0).2 = [] :=
  etl_zero_valid_records_fails sampleEnvNoValid [] "b1" false 0 rfl rfl rfl

/-- Witness for C8: one valid row, transform tags it, the loader
inserts it with no failure. -/
theorem etl_load_result_interpretation_witness :
    ((0 < (sampleEnv.load [⟨"b1", "p"⟩] []).inserted ∧
        (sampleEnv.load [⟨"b1", "p"⟩] []).failed = 0 →
      (ETLPipeline_run sampleEnv [] "b1" false 0).1.success = true ∧
      (ETLPipeline_run sampleEnv [] "b1" false 0).1.error_message = none) ∧
     (0 < (sampleEnv.load [⟨"b1", "p"⟩] []).inserted ∧
        0 < (sampleEnv.load [⟨"b1", "p"⟩] []).failed →
      (ETLPipeline_run sampleEnv [] "b1" false 0).1.success = true ∧
      (ETLPipeline_run sampleEnv [] "b1" false 0).1.error_message
        = some partialMsg) ∧
     ((sampleEnv.load [⟨"b1", "p"⟩] []).inserted = 0 →
      (ETLPipeline_run sampleEnv [] "b1" false 0).1.success = false ∧
      (ETLPipeline_run sampleEnv [] "b1" false 0).1.error_message
        = some noneInsertedMsg)) ∧
    (ETLPipeline_run sampleEnv [] "b1" false 0).1.records_inserted
      = (sampleEnv.load [⟨"b1", "p"⟩] []).inserted ∧
    (ETLPipeline_run sampleEnv [] "b1" false 0).1.records_failed
      = (sampleEnv.load [⟨"b1", "p"⟩] []).failed :=
  etl_load_result_interpretation sampleEnv [] "b1" false 0 [⟨"b1", "p"⟩]
    rfl rfl (by norm_num [validationSuccessRate, sampleEnv])
    (by simp [sampleEnv]) rfl

/-- Witness for C9: a store holding one row of batch `b1`. -/
theorem etl_skip_existing_noop_witness :
    ETLPipeline_run sampleEnv [⟨"b1", "p"⟩] "b1" true 95
      = ({ emptyEtlResult with success := true,
                               error_message := some skipMsg }, [⟨"b1", "p"⟩]) :=
  etl_skip_existing_noop sampleEnv [⟨"b1", "p"⟩] "b1" 95 rfl rfl (by decide)

/-- Witness for C10: the existence query raises, the store already
holds batch `b1`, yet the run loads one more row. -/
theorem check_batch_exists_error_weakens_idempotence_witness :
    check_batch_exists (Except.error "db down") "b1" = false ∧
    (ETLPipeline_run
        { sampleEnv with batchQueryFault := some "db down" }
        [⟨"b1", "p"⟩] "b1" true 0).1.records_inserted
      = (({ sampleEnv with batchQueryFault := some "db down" } : EtlEnv).load
          [⟨"b1", "p"⟩] [⟨"b1", "p"⟩]).inserted ∧
    (ETLPipeline_run
        { sampleEnv with batchQueryFault := some "db down" }
        [⟨"b1", "p"⟩] "b1" true 0).2
      = (({ sampleEnv with batchQueryFault := some "db down" } : EtlEnv).load
          [⟨"b1", "p"⟩] [⟨"b1", "p"⟩]).newStore :=
  check_batch_exists_error_weakens_idempotence
    { sampleEnv with batchQueryFault := some "db down" }
    [⟨"b1", "p"⟩] "b1" 0 "db down" [⟨"b1", "p"⟩]
    rfl rfl (by decide) (by norm_num [validationSuccessRate, sampleEnv])
    (by simp [sampleEnv]) rfl

/-! ## Raw-data aggregation (`aggregate_raw_data_to_kpis`,
kpi_engine.py:157-235)

The `raw_ads_spend` table (database_loader.py:27-43) is a list of
`RawRow`s.  The engine builds a `GROUP BY` query from the caller's
dimension list verbatim; the query's execution is modelled
column-faithfully: it succeeds exactly when every grouping column is a
column of `raw_ads_spend`, and otherwise raises the binder error the
store reports for an unknown column.  The optional inclusive
`[start_date, end_date]` filter narrows the rows before grouping and is
orthogonal to the dimension handling the claims are about; it is not
modelled.  `datetime.now()` timestamps are fixed at `0`. -/

/-- One row of the `raw_ads_spend` table. -/
structure RawRow where
  date : String
  platform : String
  account : String
  campaign : String
  country : String
  device : String
  spend : ℚ
  clicks : ℤ
  impressions : ℤ
  conversions : ℤ
  load_date : ℕ
  source_file_name : String
  batch_id : String
  deriving Repr, DecidableEq

/-- The six dimension column names, which are also the engine's default
grouping (kpi_engine.py:170-171). -/
def defaultDimensions : List String :=
  ["date", "platform", "account", "campaign", "country", "device"]

/-- The grouping column list the engine splices into its SQL
(kpi_engine.py:170-175): the caller's list verbatim, or the default when
none is given — no filtering of any kind. -/
def groupingColumns (dimensions : Option (List String)) : List String :=
  dimensions.getD defaultDimensions

/-- All columns of `raw_ads_spend`; a `GROUP BY` on anything else makes
the query raise. -/
def rawColumns : List String :=
  defaultDimensions ++
    ["spend", "clicks", "impressions", "conversions",
     "load_date", "source_file_name", "batch_id"]

/-- A cell value of a `raw_ads_spend` column, for grouping keys. -/
inductive ColVal where
  | str : String → ColVal
  | rat : ℚ → ColVal
  | int : ℤ → ColVal
  | nat : ℕ → ColVal
  deriving Repr, DecidableEq

/-- The value a `raw_ads_spend` row holds in a named column (the
catch-all branch is unreachable for columns of the table). -/
def RawRow.colValue (r : RawRow) : String → ColVal
  | "date" => ColVal.str r.date
  | "platform" => ColVal.str r.platform
  | "account" => ColVal.str r.account
  | "campaign" => ColVal.str r.campaign
  | "country" => ColVal.str r.country
  | "device" => ColVal.str r.device
  | "spend" => ColVal.rat r.spend
  | "clicks" => ColVal.int r.clicks
  | "impressions" => ColVal.int r.impressions
  | "conversions" => ColVal.int r.conversions
  | "load_date" => ColVal.nat r.load_date
  | "source_file_name" => ColVal.str r.source_file_name
  | "batch_id" => ColVal.str r.batch_id
  | _ => ColVal.str ""

/-- The distinct values of a list in order of first appearance — the
grouping keys of a `GROUP BY`. -/
def distinctKeys {α : Type} [DecidableEq α] : List α → List α
  | [] => []
  | a :: as => a :: distinctKeys (as.filter (fun x => x ≠ a))
termination_by l => l.length
decreasing_by
  exact Nat.lt_succ_of_le (List.length_filter_le _ _)

/-- `row_dict.get(name, default)` for a dimension column of the
aggregated result row: the key's value when the column was grouped on,
else the default sentinel (kpi_engine.py:215-221). -/
def dimValue (cols : List String) (key : List ColVal) (c : String)
    (default : String) : String :=
  match ((cols.zip key).find? (fun p => p.1 = c)).map (fun p => p.2) with
  | some (ColVal.str s) => s
  | _ => default

/-- `KPIEngine.aggregate_raw_data_to_kpis` (kpi_engine.py:157-235):
groups the raw store by the caller's dimension list **verbatim** (the
default six when none is given), sums spend/conversions per group, runs
`compute_kpis_for_record` on the sums, and fills ungrouped dimensions
with `"ALL"` — except `date`, which falls back to today's date.  A
grouping column that is not a column of `raw_ads_spend` makes the query
raise, which the engine re-raises. -/
def aggregate_raw_data_to_kpis (raw : List RawRow) (today : String)
    (dimensions : Option (List String)) : Except String (List KPIMetrics) :=
  let cols := groupingColumns dimensions
  if cols.all (fun c => c ∈ rawColumns) then
    Except.ok ((distinctKeys (raw.map (fun r => cols.map r.colValue))).map
      (fun k =>
        let rows := raw.filter (fun r => cols.map r.colValue = k)
        let total_spend : ℚ := (rows.map (fun r => r.spend)).sum
        let total_conversions : ℤ := (rows.map (fun r => r.conversions)).sum
        let kpi := compute_kpis_for_record total_spend total_conversions
        { date := dimValue cols k "date" today
          platform := dimValue cols k "platform" "ALL"
          account := dimValue cols k "account" "ALL"
          campaign := dimValue cols k "campaign" "ALL"
          country := dimValue cols k "country" "ALL"
          device := dimValue cols k "device" "ALL"
          total_spend := kpi.total_spend
          total_conversions := kpi.total_conversions
          cac := kpi.cac
          roas := kpi.roas
          revenue := kpi.revenue
          created_at := 0 }))
  else Except.error "Binder Error: referenced column not found in FROM clause"

/-- Counterexample to C5: the dimension list
`["invalid_dim", "platform"]` is not filtered against the valid set —
it reaches the grouping verbatim — and the aggregation fails with a
query error instead of dropping the invalid entry. -/
theorem aggregate_invalid_dimension_raises :
    groupingColumns (some ["invalid_dim", "platform"])
      = ["invalid_dim", "platform"] ∧
    groupingColumns (some ["invalid_dim", "platform"])
      ≠ (["invalid_dim", "platform"].filter (fun c => c ∈ defaultDimensions)) ∧
    aggregate_raw_data_to_kpis [] "2025-01-01" (some ["invalid_dim", "platform"])
      = Except.error "Binder Error: referenced column not found in FROM clause" := by
  refine ⟨rfl, by decide, ?_⟩
  rfl

/-- C5 amended: `aggregate_raw_data_to_kpis` applies no filtering to
the caller's dimension list — the list is used verbatim as the
grouping — and the aggregation succeeds exactly when every entry is a
column of `raw_ads_spend`; any other entry makes it raise. -/
theorem aggregate_dimensions_used_verbatim :
    (∀ dims : List String, groupingColumns (some dims) = dims) ∧
    (∀ (raw : List RawRow) (today : String) (dims : List String),
      (aggregate_raw_data_to_kpis raw today (some dims)).isOk
        = dims.all (fun c => c ∈ rawColumns)) := by
  refine ⟨fun dims => rfl, ?_⟩
  intro raw today dims
  cases hb : dims.all (fun c => decide (c ∈ rawColumns)) with
  | false =>
      simp [aggregate_raw_data_to_kpis, groupingColumns, hb,
        Except.isOk, Except.toBool]
  | true =>
      simp [aggregate_raw_data_to_kpis, groupingColumns, hb,
        Except.isOk, Except.toBool]

/-! ## KPI validation (`validate_kpi_calculations`, kpi_engine.py:368-446)

The validation query's two CTEs group `raw_ads_spend` and `kpi_metrics`
by `(date, platform)`, left-join them, and select raw/kpi sums, the
CAC/ROAS recomputed from raw sums, the kpi-side `AVG(cac)`/`AVG(roas)`
(over non-null values, as SQL `AVG` ignores nulls), and the absolute
spend/conversion differences against `COALESCE(..., 0)`.  The Python
loop then counts a row as a mismatch when
`spend_diff > 0.01 or conversions_diff > 0`.  `ORDER BY` only permutes
the compared rows and cannot change any count; rows are produced in
first-appearance order of their group key. -/

/-- The `(date, platform)` grouping key of the validation query. -/
def dpKey (r : RawRow) : String × String := (r.date, r.platform)

/-- The `(date, platform)` key of a stored KPI row. -/
def kpiDpKey (m : KPIMetrics) : String × String := (m.date, m.platform)

/-- `SUM(spend)` of the raw rows in a `(date, platform)` group. -/
def rawSpendAt (raw : List RawRow) (k : String × String) : ℚ :=
  ((raw.filter (fun r => dpKey r = k)).map (fun r => r.spend)).sum

/-- `SUM(conversions)` of the raw rows in a `(date, platform)` group. -/
def rawConvAt (raw : List RawRow) (k : String × String) : ℤ :=
  ((raw.filter (fun r => dpKey r = k)).map (fun r => r.conversions)).sum

/-- `raw_cac`: `SUM(spend)/SUM(conversions)` when positive conversions,
else null (the CTE's `CASE`). -/
def rawCacAt (raw : List RawRow) (k : String × String) : Option ℚ :=
  if 0 < rawConvAt raw k then some (rawSpendAt raw k / (rawConvAt raw k : ℚ))
  else none

/-- `raw_roas`: `SUM(conversions)*100/SUM(spend)` when positive spend,
else null. -/
def rawRoasAt (raw : List RawRow) (k : String × String) : Option ℚ :=
  if 0 < rawSpendAt raw k then
    some (((rawConvAt raw k : ℚ) * 100) / rawSpendAt raw k)
  else none

/-- The stored KPI rows of a `(date, platform)` group. -/
def kpiRowsAt (kpi : List KPIMetrics) (k : String × String) : List KPIMetrics :=
  kpi.filter (fun m => kpiDpKey m = k)

/-- `kpi_spend` after the left join: null when the group is absent from
`kpi_metrics`, otherwise `SUM(total_spend)`. -/
def kpiSpendAt (kpi : List KPIMetrics) (k : String × String) : Option ℚ :=
  if kpiRowsAt kpi k = [] then none
  else some ((kpiRowsAt kpi k).map (fun m => m.total_spend)).sum

/-- `kpi_conversions` after the left join. -/
def kpiConvAt (kpi : List KPIMetrics) (k : String × String) : Option ℤ :=
  if kpiRowsAt kpi k = [] then none
  else some ((kpiRowsAt kpi k).map (fun m => m.total_conversions)).sum

/-- SQL `AVG` over a nullable column: the mean of the non-null values,
null when there are none. -/
def avgOpt (xs : List ℚ) : Option ℚ :=
  if xs = [] then none else some (xs.sum / (xs.length : ℚ))

/-- `kpi_cac = AVG(cac)` of a group. -/
def kpiCacAt (kpi : List KPIMetrics) (k : String × String) : Option ℚ :=
  avgOpt ((kpiRowsAt kpi k).filterMap (fun m => m.cac))

/-- `kpi_roas = AVG(roas)` of a group. -/
def kpiRoasAt (kpi : List KPIMetrics) (k : String × String) : Option ℚ :=
  avgOpt ((kpiRowsAt kpi k).filterMap (fun m => m.roas))

/-- One row of the validation query's final `SELECT`. -/
structure ValidationRow where
  date : String
  platform : String
  raw_spend : ℚ
  kpi_spend : Option ℚ
  raw_conversions : ℤ
  kpi_conversions : Option ℤ
  raw_cac : Option ℚ
  kpi_cac : Option ℚ
  raw_roas : Option ℚ
  kpi_roas : Option ℚ
  spend_diff : ℚ
  conversions_diff : ℤ
  deriving Repr, DecidableEq

/-- The joined comparison rows, one per `(date, platform)` group of the
raw store, with `spend_diff`/`conversions_diff` computed against
`COALESCE(kpi value, 0)`. -/
def validationRows (raw : List RawRow) (kpi : List KPIMetrics) :
    List ValidationRow :=
  (distinctKeys (raw.map dpKey)).map (fun k =>
    { date := k.1
      platform := k.2
      raw_spend := rawSpendAt raw k
      kpi_spend := kpiSpendAt kpi k
      raw_conversions := rawConvAt raw k
      kpi_conversions := kpiConvAt kpi k
      raw_cac := rawCacAt raw k
      kpi_cac := kpiCacAt kpi k
      raw_roas := rawRoasAt raw k
      kpi_roas := kpiRoasAt kpi k
      spend_diff := |rawSpendAt raw k - (kpiSpendAt kpi k).getD 0|
      conversions_diff := |rawConvAt raw k - (kpiConvAt kpi k).getD 0| })

/-- The mismatch test of the Python loop (kpi_engine.py:434):
`spend_diff > 0.01 or conversions_diff > 0` — nothing else. -/
def kpiMismatch (row : ValidationRow) : Bool :=
  decide (row.spend_diff > 1/100) || decide (row.conversions_diff > 0)

/-- The dictionary `validate_kpi_calculations` accumulates
(kpi_engine.py:420-439). -/
structure KpiValidationSummary where
  total_comparisons : ℕ
  mismatches : ℕ
  spend_differences : List ℚ
  conversion_differences : List ℤ
  details : List ValidationRow
  deriving Repr, DecidableEq

/-- One iteration of the Python result loop (kpi_engine.py:428-439). -/
def kpiValidationStep (acc : KpiValidationSummary) (row : ValidationRow) :
    KpiValidationSummary :=
  let acc :=
    if kpiMismatch row then
      { acc with mismatches := acc.mismatches + 1,
                 details := acc.details ++ [row] }
    else acc
  { acc with
      spend_differences := acc.spend_differences ++ [row.spend_diff],
      conversion_differences := acc.conversion_differences ++ [row.conversions_diff] }

/-- `KPIEngine.validate_kpi_calculations` (kpi_engine.py:368-446):
runs the validation query and folds the Python loop over its rows,
starting from `total_comparisons = len(rows)` and zero mismatches. -/
def validate_kpi_calculations (raw : List RawRow) (kpi : List KPIMetrics) :
    KpiValidationSummary :=
  let rows := validationRows raw kpi
  rows.foldl kpiValidationStep ⟨rows.length, 0, [], [], []⟩

/-- The six-dimension key of a raw row, as the KPI store's primary key
orders it. -/
def sixDims (r : RawRow) : String × String × String × String × String × String :=
  (r.date, r.platform, r.account, r.campaign, r.country, r.device)

/-- The validation procedure as claim C1 words it: re-aggregate the raw
store on the full six-dimension key, recompute CAC/ROAS from the raw
sums, compare each group with the stored KPI row of that key, and call
it a mismatch iff `|spend_diff| > 0.01`, `|conversions_diff| > 0`,
`|cac_diff| > 0.0001` or `|roas_diff| > 0.0001` (differences of a null
against a non-null value contribute nothing). -/
def specMismatchAt (raw : List RawRow) (kpi : List KPIMetrics)
    (k : String × String × String × String × String × String) : Bool :=
  let rows := raw.filter (fun r => sixDims r = k)
  let ts : ℚ := (rows.map (fun r => r.spend)).sum
  let tc : ℤ := (rows.map (fun r => r.conversions)).sum
  let rcac : Option ℚ := if 0 < tc then some (ts / (tc : ℚ)) else none
  let rroas : Option ℚ := if 0 < ts then some (((tc : ℚ) * 100) / ts) else none
  let m := (kpi.filter (fun m => m.key = k)).head?
  let sd : ℚ := |ts - ((m.map (fun x => x.total_spend)).getD 0)|
  let cd : ℤ := |tc - ((m.map (fun x => x.total_conversions)).getD 0)|
  let cacd : ℚ :=
    match rcac, m.bind (fun x => x.cac) with
    | some a, some b => |a - b|
    | _, _ => 0
  let roasd : ℚ :=
    match rroas, m.bind (fun x => x.roas) with
    | some a, some b => |a - b|
    | _, _ => 0
  decide (sd > 1/100) || decide (0 < cd) ||
    decide (cacd > 1/10000) || decide (roasd > 1/10000)

/-- `(total comparisons, mismatch count)` of the spec-worded validation
(six-dimension grouping, four thresholds). -/
def validate_kpi_calculationsSpec (raw : List RawRow) (kpi : List KPIMetrics) :
    ℕ × ℕ :=
  let keys := distinctKeys (raw.map sixDims)
  (keys.length, (keys.filter (fun k => specMismatchAt raw kpi k)).length)

/-- A raw observation used by the validation counterexample. -/
def rawRowA : RawRow :=
  { date := "2025-01-01", platform := "Meta", account := "A",
    campaign := "C", country := "US", device := "Desktop",
    spend := 100, clicks := 10, impressions := 100, conversions := 5,
    load_date := 0, source_file_name := "f.csv", batch_id := "b1" }

/-- A second observation in the same `(date, platform)` group but a
different campaign. -/
def rawRowB : RawRow := { rawRowA with campaign := "D", spend := 50 }

/-- A stored KPI row whose spend/conversions agree with `rawRowA` but
whose CAC and ROAS are wildly wrong. -/
def kpiRowBadCac : KPIMetrics :=
  { date := "2025-01-01", platform := "Meta", account := "A",
    campaign := "C", country := "US", device := "Desktop",
    total_spend := 100, total_conversions := 5, cac := some 999,
    roas := some 1, revenue := 500, created_at := 0 }

/-- Counterexample to C1.  With one raw row and a stored KPI row of the
same key whose CAC/ROAS are wildly wrong but whose sums agree, the code
reports zero mismatches (it never compares CAC/ROAS), while the claimed
procedure reports one.  And with two raw rows differing only in
campaign, the code makes one comparison — it groups by
`(date, platform)`, not the six-dimension key — where the claimed
procedure makes two. -/
theorem validate_kpi_calculations_counterexample :
    (validate_kpi_calculations [rawRowA] [kpiRowBadCac]).total_comparisons = 1 ∧
    (validate_kpi_calculations [rawRowA] [kpiRowBadCac]).mismatches = 0 ∧
    validate_kpi_calculationsSpec [rawRowA] [kpiRowBadCac] = (1, 1) ∧
    (validate_kpi_calculations [rawRowA, rawRowB] []).total_comparisons = 1 ∧
    (validate_kpi_calculationsSpec [rawRowA, rawRowB] []).1 = 2 := by
  have hpair : ∀ {α : Type} [inst : DecidableEq α] (a b : α), a ≠ b →
      distinctKeys [a, b] = [a, b] := by
    intro α _ a b h
    simp [distinctKeys, Ne.symm h]
  refine ⟨?_, ?_, ?_, ?_, ?_⟩
  · norm_num [validate_kpi_calculations, validationRows, distinctKeys,
      kpiValidationStep, kpiMismatch, rawSpendAt, rawConvAt, rawCacAt,
      rawRoasAt, kpiRowsAt, kpiSpendAt, kpiConvAt, kpiCacAt, kpiRoasAt,
      avgOpt, dpKey, kpiDpKey, rawRowA, kpiRowBadCac]
  · norm_num [validate_kpi_calculations, validationRows, distinctKeys,
      kpiValidationStep, kpiMismatch, rawSpendAt, rawConvAt, rawCacAt,
      rawRoasAt, kpiRowsAt, kpiSpendAt, kpiConvAt, kpiCacAt, kpiRoasAt,
      avgOpt, dpKey, kpiDpKey, rawRowA, kpiRowBadCac]
  · norm_num [validate_kpi_calculationsSpec, distinctKeys, specMismatchAt,
      sixDims, KPIMetrics.key, rawRowA, kpiRowBadCac]
  · norm_num [validate_kpi_calculations, validationRows, distinctKeys,
      kpiValidationStep, kpiMismatch, rawSpendAt, rawConvAt, rawCacAt,
      rawRoasAt, kpiRowsAt, kpiSpendAt, kpiConvAt, kpiCacAt, kpiRoasAt,
      avgOpt, dpKey, kpiDpKey, rawRowA, rawRowB]
  · have hne : sixDims rawRowA ≠ sixDims rawRowB := by decide
    simp [validate_kpi_calculationsSpec, hpair _ _ hne]

/-- Invariant of the Python result loop: folding `kpiValidationStep`
adds one mismatch per row satisfying `kpiMismatch`, appends exactly
those rows to the details, and never touches `total_comparisons`. -/
theorem kpiValidationStep_foldl (rows : List ValidationRow)
    (acc : KpiValidationSummary) :
    (rows.foldl kpiValidationStep acc).mismatches
        = acc.mismatches + rows.countP kpiMismatch ∧
    (rows.foldl kpiValidationStep acc).total_comparisons
        = acc.total_comparisons ∧
    (rows.foldl kpiValidationStep acc).details
        = acc.details ++ rows.filter kpiMismatch := by
  induction rows generalizing acc with
  | nil => simp
  | cons row rest ih =>
    rcases ih (kpiValidationStep acc row) with ⟨ih₁, ih₂, ih₃⟩
    rw [List.foldl_cons]
    refine ⟨?_, ?_, ?_⟩
    · rw [ih₁, List.countP_cons]
      by_cases h : kpiMismatch row <;> simp [kpiValidationStep, h] <;> omega
    · rw [ih₂]
      by_cases h : kpiMismatch row <;> simp [kpiValidationStep, h]
    · rw [ih₃, List.filter_cons]
      by_cases h : kpiMismatch row <;> simp [kpiValidationStep, h]

/-- C1 amended: `validate_kpi_calculations` compares one row per
distinct `(date, platform)` key of the raw store — a coarser grouping
than the KPI store's six-dimension key — and counts a compared row as a
mismatch if and only if `spend_diff > 0.01` or `conversions_diff > 0`;
the recomputed and stored CAC/ROAS values are carried into the row
detail but never affect the mismatch decision. -/
theorem validate_kpi_calculations_characterization (raw : List RawRow)
    (kpi : List KPIMetrics) :
    (validate_kpi_calculations raw kpi).total_comparisons
        = (distinctKeys (raw.map dpKey)).length ∧
    (validate_kpi_calculations raw kpi).mismatches
        = (validationRows raw kpi).countP kpiMismatch ∧
    (validate_kpi_calculations raw kpi).details
        = (validationRows raw kpi).filter kpiMismatch ∧
    (∀ row : ValidationRow,
      kpiMismatch row
        = (decide (row.spend_diff > 1/100) || decide (row.conversions_diff > 0))) := by
  rcases kpiValidationStep_foldl (validationRows raw kpi)
      ⟨(validationRows raw kpi).length, 0, [], [], []⟩ with ⟨h₁, h₂, h₃⟩
  refine ⟨?_, ?_, ?_, fun row => rfl⟩
  · rw [validate_kpi_calculations] at *
    rw [h₂, validationRows, List.length_map]
  · rw [validate_kpi_calculations] at *
    rw [h₁]
    simp
  · rw [validate_kpi_calculations] at *
    rw [h₃]
    simp

end AIDataPlatform
